import Mathlib

/-!
Device Tree Detective: platform shims.

A shallow embedding of the three foreign-function shims of the repository

* `src/windows_dialog.cpp` : `COMIsInitialized`, `COMInit`, `windows_file_picker`
* `src/gtk_extern.c`       : `wait_for_cleanup`, `gtk_file_picker`
* `include/ig_extern.h`    : `igExtern_MainMenuBarHeight` (declaration only)

The platform (Win32 COM, GTK) is an external collaborator.  It is modelled by a
mock: a record of what each platform call answers (for `gtk_events_pending`, which
is called in a loop, the answer after a given history of calls).  Each shim is a
state-passing program over the log of platform calls it has made so far, so a
run yields both the returned pointer and the exact sequence of platform calls.
-/

namespace DeviceTreeDetective

/-! ## Win32 data model -/

/-- A Win32 `HRESULT` is a signed 32-bit integer; it is modelled by its signed value. -/
abbrev HRESULT := Int

/-- The signed value of a 32-bit pattern (a C cast of an unsigned long to `HRESULT`). -/
def toHRESULT (bits : Nat) : HRESULT :=
  if bits % 2 ^ 32 < 2 ^ 31 then (bits % 2 ^ 32 : Nat) else ((bits % 2 ^ 32 : Nat) : Int) - 2 ^ 32

/-- The Windows SDK test `#define SUCCEEDED(hr) (((HRESULT)(hr)) >= 0)` of `winerror.h`. -/
def SUCCEEDED (hr : HRESULT) : Bool := decide (0 ≤ hr)

/-- The Windows SDK constant `RPC_E_CHANGED_MODE = _HRESULT_TYPEDEF_(0x80010106L)` of
`winerror.h`. -/
def RPC_E_CHANGED_MODE : HRESULT := toHRESULT 0x80010106

/-- The Windows SDK constant `ERROR_CANCELLED = 1223L` of `winerror.h`. -/
def ERROR_CANCELLED : Int := 1223

/-- The Windows SDK constant `FACILITY_WIN32 = 7` of `winerror.h`. -/
def FACILITY_WIN32 : Nat := 7

/-- The Windows SDK function of `winerror.h`:
`HRESULT_FROM_WIN32(x) = x <= 0 ? x : ((x & 0x0000FFFF) | (FACILITY_WIN32 << 16) | 0x80000000)`. -/
def HRESULT_FROM_WIN32 (x : Int) : HRESULT :=
  if x ≤ 0 then x
  else toHRESULT ((x.toNat &&& 0x0000FFFF) ||| (FACILITY_WIN32 <<< 16) ||| 0x80000000)

/-- A `wchar_t *`: either `NULL` (`none`) or the UTF-16 code units of the string it points to. -/
abbrev PWSTR := Option (List Nat)

/-- The platform calls `windows_file_picker` can make, in the order they occur in the source. -/
inductive WinCall where
  | CoInitializeEx
  | CoCreateInstance
  | Show
  | GetResult
  | GetDisplayName
  | ShellItem_Release
  | FileOpenDialog_Release
  deriving DecidableEq, Repr

/-- A mocked Win32 platform: the `HRESULT` every call answers, and the pointer
`GetDisplayName` stores through its out-parameter `ppszName`. -/
structure Win32 where
  CoInitializeEx : HRESULT
  CoCreateInstance : HRESULT
  Show : HRESULT
  GetResult : HRESULT
  GetDisplayName : HRESULT
  ppszName : PWSTR
  deriving Repr

/-- A statement of a C function body over the log of Win32 calls made so far: it either
falls through to the next statement (`Except.ok`) or leaves the function early with its
return value (`Except.error`). -/
abbrev WinM := ExceptT PWSTR (StateM (List WinCall))

/-- Record one platform call in the log. -/
def winCall (c : WinCall) : WinM Unit := modify (fun log => log ++ [c])

/-- The C statement `return v;` with statements after it in the function body. -/
def winReturn (v : PWSTR) : WinM Unit := throw v

/-! ## `src/windows_dialog.cpp` -/

/-- Source: `COMIsInitialized` (windows_dialog.cpp, lines 14-25). -/
def COMIsInitialized (coResult : HRESULT) : Bool :=
  if coResult = RPC_E_CHANGED_MODE then
    true
  else
    SUCCEEDED coResult

/-- Source: `COMInit` (windows_dialog.cpp, lines 27-30). -/
def COMInit (w : Win32) : WinM HRESULT := do
  winCall .CoInitializeEx
  pure w.CoInitializeEx

/-- Source: the body of `windows_file_picker` (windows_dialog.cpp, lines 34-79), statement by
statement, the statements after the `if`/`else` chain included.  The value of the block is
that of the last statement of the body, `return NULL;`. -/
def windows_file_picker_body (w : Win32) : WinM PWSTR := do
  let coResult ← COMInit w
  if !COMIsInitialized coResult then
    winReturn none
  winCall .CoCreateInstance
  let mut result := w.CoCreateInstance
  if !SUCCEEDED result then
    winReturn none
  winCall .Show
  result := w.Show
  if SUCCEEDED result then
    winCall .GetResult
    result := w.GetResult
    if !SUCCEEDED result then
      winReturn none
    let mut filePath : PWSTR := none
    winCall .GetDisplayName
    result := w.GetDisplayName
    filePath := w.ppszName
    if !SUCCEEDED result then
      winCall .ShellItem_Release
      winReturn none
    winReturn filePath
  else if result = HRESULT_FROM_WIN32 ERROR_CANCELLED then
    winReturn none
  else
    winReturn none
  winCall .FileOpenDialog_Release
  return none

/-- One run of `windows_file_picker` on the mocked platform, from an empty log: the returned
pointer (of an early `return` or of the last statement) and the platform calls made, in
order. -/
def windows_file_picker (w : Win32) : PWSTR × List WinCall :=
  match (windows_file_picker_body w).run.run [] with
  | (.error v, log) => (v, log)
  | (.ok v, log) => (v, log)

/-! ## GTK data model -/

/-- The GTK constant `GTK_RESPONSE_ACCEPT = -3` of the enumeration `GtkResponseType`
(`gtk/gtkdialog.h`). -/
def GTK_RESPONSE_ACCEPT : Int := -3

/-- The GTK constant `GTK_RESPONSE_DELETE_EVENT = -4` of `GtkResponseType`. -/
def GTK_RESPONSE_DELETE_EVENT : Int := -4

/-- The GTK constant `GTK_RESPONSE_CANCEL = -6` of `GtkResponseType`. -/
def GTK_RESPONSE_CANCEL : Int := -6

/-- A `char *`: either `NULL` (`none`) or the bytes of the string it points to. -/
abbrev CharPtr := Option (List Nat)

/-- The toolkit calls `gtk_file_picker` can make.  A `gtk_events_pending` entry carries the
answer the toolkit gave. -/
inductive GtkCall where
  | gtk_init_check
  | gtk_file_chooser_dialog_new
  | gtk_dialog_run
  | gtk_file_chooser_get_filename
  | gtk_events_pending (answer : Bool)
  | gtk_main_iteration
  | gtk_widget_destroy
  deriving DecidableEq, Repr

/-- A mocked GTK toolkit: what `gtk_init_check` answers, the response `gtk_dialog_run`
returns, the string `gtk_file_chooser_get_filename` returns, and what `gtk_events_pending`
answers after a given history of toolkit calls. -/
structure Gtk where
  gtk_init_check : Bool
  gtk_dialog_run : Int
  gtk_file_chooser_get_filename : CharPtr
  gtk_events_pending : List GtkCall → Bool

/-- A statement of a C function body over the log of toolkit calls made so far: it falls
through (`Except.ok`), leaves the function early with its return value (`Except.error`), or
has no outcome because a loop ran out of fuel (`none`). -/
abbrev GtkM := ExceptT CharPtr (StateT (List GtkCall) Option)

/-- Record one toolkit call in the log. -/
def gtkCall (c : GtkCall) : GtkM Unit := modify (fun log => log ++ [c])

/-- The C statement `return v;` with statements after it in the function body. -/
def gtkReturn (v : CharPtr) : GtkM Unit := throw v

/-- A loop that used up its fuel: the run has no outcome. -/
def gtkOutOfFuel : GtkM Unit := ExceptT.lift (StateT.lift none)

/-- The call `gtk_events_pending()`: the mock answers from the calls made so far, and the
call is logged with its answer. -/
def gtk_events_pending (g : Gtk) : GtkM Bool := do
  let log ← get
  let answer := g.gtk_events_pending log
  gtkCall (.gtk_events_pending answer)
  pure answer

/-! ## `src/gtk_extern.c` -/

/-- Source: `wait_for_cleanup` (gtk_extern.c, lines 3-8).  The `while` loop evaluates its
condition at most `fuel` times. -/
def wait_for_cleanup (g : Gtk) : Nat → GtkM Unit
  | 0 => gtkOutOfFuel
  | fuel + 1 => do
    if (← gtk_events_pending g) then
      gtkCall .gtk_main_iteration
      wait_for_cleanup g fuel

/-- Source: the body of `gtk_file_picker` (gtk_extern.c, lines 11-33), statement by
statement; each of the two `wait_for_cleanup()` calls gets `fuel`. -/
def gtk_file_picker_body (g : Gtk) (fuel : Nat) : GtkM CharPtr := do
  gtkCall .gtk_init_check
  if !g.gtk_init_check then
    gtkReturn none
  let mut filename : CharPtr := none
  gtkCall .gtk_file_chooser_dialog_new
  gtkCall .gtk_dialog_run
  if g.gtk_dialog_run = GTK_RESPONSE_ACCEPT then
    gtkCall .gtk_file_chooser_get_filename
    filename := g.gtk_file_chooser_get_filename
  wait_for_cleanup g fuel
  gtkCall .gtk_widget_destroy
  wait_for_cleanup g fuel
  return filename

/-- One run of `gtk_file_picker` on the mocked toolkit, from an empty log: `none` when a
drain loop did not finish within `fuel` condition checks, otherwise the returned pointer and
the toolkit calls made, in order. -/
def gtk_file_picker (g : Gtk) (fuel : Nat) : Option (CharPtr × List GtkCall) :=
  match (gtk_file_picker_body g fuel).run.run [] with
  | none => none
  | some (.error v, log) => some (v, log)
  | some (.ok v, log) => some (v, log)

/-- The log entries of `k` rounds of the loop of `wait_for_cleanup`: the toolkit answers that
events are pending and one main-loop iteration runs. -/
def mainLoopIterations : Nat → List GtkCall
  | 0 => []
  | k + 1 => [.gtk_events_pending true, .gtk_main_iteration] ++ mainLoopIterations k

/-- The log entries of one complete drain: `k` rounds of the loop, then the check that finds
no event pending and ends the loop. -/
def drainLog (k : Nat) : List GtkCall :=
  mainLoopIterations k ++ [.gtk_events_pending false]

/-- The log of `gtk_file_picker` when it reaches its first `wait_for_cleanup()`: the calls up
to the dialog response, and `gtk_file_chooser_get_filename` after an accept. -/
def dialogLog (g : Gtk) : List GtkCall :=
  [.gtk_init_check, .gtk_file_chooser_dialog_new, .gtk_dialog_run] ++
    if g.gtk_dialog_run = GTK_RESPONSE_ACCEPT then [.gtk_file_chooser_get_filename] else []

/-- A drain started after the history `log` finishes after exactly `k` loop rounds: the
toolkit answers that events are pending at each of the first `k` checks, and that none is
pending at the next one. -/
def FirstEmptyAfter (g : Gtk) (log : List GtkCall) (k : Nat) : Prop :=
  (∀ j, j < k → g.gtk_events_pending (log ++ mainLoopIterations j) = true) ∧
    g.gtk_events_pending (log ++ mainLoopIterations k) = false

/-- The loop of `wait_for_cleanup` as a function on logs, used to reason about runs. -/
def drain (g : Gtk) : Nat → List GtkCall → Option (List GtkCall)
  | 0, _ => none
  | fuel + 1, log =>
    if g.gtk_events_pending log = true then
      drain g fuel (log ++ [.gtk_events_pending true, .gtk_main_iteration])
    else
      some (log ++ [.gtk_events_pending false])

/-- A mocked toolkit in which showing the dialog and destroying it each leave one event in
the queue: an event is pending exactly when the last call was `gtk_dialog_run`,
`gtk_file_chooser_get_filename` or `gtk_widget_destroy`. -/
def oneEventToolkit (response : Int) (filename : CharPtr) : Gtk where
  gtk_init_check := true
  gtk_dialog_run := response
  gtk_file_chooser_get_filename := filename
  gtk_events_pending := fun log =>
    log.getLast? == some .gtk_dialog_run ||
    log.getLast? == some .gtk_file_chooser_get_filename ||
    log.getLast? == some .gtk_widget_destroy

/-- A mocked toolkit that initializes and whose event queue never runs empty:
`gtk_events_pending` answers true after every history. -/
def alwaysPendingToolkit (response : Int) (filename : CharPtr) : Gtk where
  gtk_init_check := true
  gtk_dialog_run := response
  gtk_file_chooser_get_filename := filename
  gtk_events_pending := fun _ => true

/-! ## Dear ImGui accessor -/

/-- A C `float`, given by its 32-bit IEEE-754 pattern; the accessor does no arithmetic. -/
abbrev CFloat := Nat

/-- Modelled from the spec: the window structure of the GUI library (`ImGuiWindow`, declared
in `cimgui.h`, which is not part of the sources): the main-menu-bar height field the accessor
exposes, and the remaining fields of the window. -/
structure ImGuiWindow where
  MainMenuBarHeight : CFloat
  otherFields : List Nat
  deriving DecidableEq, Repr

/-- Modelled from the spec: the GUI library's internal window registry, a table from window
handles (addresses) to windows.  A handle is valid when the table has a window for it. -/
abbrev ImGuiRegistry := List (Nat × ImGuiWindow)

/-- Modelled from the spec: the body of `igExtern_MainMenuBarHeight` is missing from the
sources (`include/ig_extern.h` only declares it).  The spec describes it as a read-only field
accessor: it returns the main-menu-bar height field of the window behind the handle, and
performs no mutation.  The result is the value read (`none` for a handle that is not valid,
where the C function has no defined result) and the registry after the call. -/
def igExtern_MainMenuBarHeight (registry : ImGuiRegistry) (window : Nat) :
    Option CFloat × ImGuiRegistry :=
  ((registry.lookup window).map (fun w => w.MainMenuBarHeight), registry)

/-! ## Facts about the Win32 result codes -/

theorem SUCCEEDED_eq_false_iff (hr : HRESULT) : SUCCEEDED hr = false ↔ hr < 0 := by
  simp [SUCCEEDED]

theorem COMIsInitialized_eq_true_iff (hr : HRESULT) :
    COMIsInitialized hr = true ↔ (SUCCEEDED hr = true ∨ hr = RPC_E_CHANGED_MODE) := by
  unfold COMIsInitialized
  by_cases h : hr = RPC_E_CHANGED_MODE <;> simp [h]

/-! ## Runs of `windows_file_picker` -/

/-- Every run of `windows_file_picker`, by the answers of the mocked platform. -/
theorem windows_file_picker_run (w : Win32) :
    windows_file_picker w =
      if COMIsInitialized w.CoInitializeEx = false then
        (none, [.CoInitializeEx])
      else if SUCCEEDED w.CoCreateInstance = false then
        (none, [.CoInitializeEx, .CoCreateInstance])
      else if SUCCEEDED w.Show = false then
        (none, [.CoInitializeEx, .CoCreateInstance, .Show])
      else if SUCCEEDED w.GetResult = false then
        (none, [.CoInitializeEx, .CoCreateInstance, .Show, .GetResult])
      else if SUCCEEDED w.GetDisplayName = false then
        (none, [.CoInitializeEx, .CoCreateInstance, .Show, .GetResult, .GetDisplayName,
          .ShellItem_Release])
      else
        (w.ppszName, [.CoInitializeEx, .CoCreateInstance, .Show, .GetResult,
          .GetDisplayName]) := by
  unfold windows_file_picker windows_file_picker_body COMInit
  cases h1 : COMIsInitialized w.CoInitializeEx <;>
  cases h2 : SUCCEEDED w.CoCreateInstance <;>
  cases h3 : SUCCEEDED w.Show <;>
  cases h4 : SUCCEEDED w.GetResult <;>
  cases h5 : SUCCEEDED w.GetDisplayName <;>
  simp [h1, h2, h3, h4, h5, winCall, winReturn] <;> rfl

/-- Every run of the body of `windows_file_picker` ends at one of its early `return`
statements: the two statements after the `if`/`else` chain are never reached. -/
theorem windows_file_picker_body_returns_early (w : Win32) :
    ∃ v log, (windows_file_picker_body w).run.run [] = (Except.error v, log) := by
  unfold windows_file_picker_body COMInit
  cases h1 : COMIsInitialized w.CoInitializeEx <;>
  cases h2 : SUCCEEDED w.CoCreateInstance <;>
  cases h3 : SUCCEEDED w.Show <;>
  cases h4 : SUCCEEDED w.GetResult <;>
  cases h5 : SUCCEEDED w.GetDisplayName <;>
  simp [h1, h2, h3, h4, h5, winCall, winReturn] <;> exact ⟨_, _, rfl⟩

/-! ## Claims on `windows_file_picker` -/

/-- C1: when `CoInitializeEx` answers a success code or `RPC_E_CHANGED_MODE`, and
`CoCreateInstance`, `Show`, `GetResult` and `GetDisplayName` all succeed, the last one storing
the wide string `P`, `windows_file_picker` returns exactly `P` (the same code units), after
exactly these five platform calls. -/
theorem windows_file_picker_returns_selected_path (w : Win32) (P : List Nat)
    (hinit : SUCCEEDED w.CoInitializeEx = true ∨ w.CoInitializeEx = RPC_E_CHANGED_MODE)
    (hcreate : SUCCEEDED w.CoCreateInstance = true)
    (hshow : SUCCEEDED w.Show = true)
    (hresult : SUCCEEDED w.GetResult = true)
    (hname : SUCCEEDED w.GetDisplayName = true)
    (hP : w.ppszName = some P) :
    windows_file_picker w =
      (some P, [.CoInitializeEx, .CoCreateInstance, .Show, .GetResult, .GetDisplayName]) := by
  have h0 : COMIsInitialized w.CoInitializeEx = true :=
    (COMIsInitialized_eq_true_iff _).mpr hinit
  rw [windows_file_picker_run]
  simp [h0, hcreate, hshow, hresult, hname, hP]

/-- Witness of C1: COM answers `RPC_E_CHANGED_MODE`, every later call answers `S_OK`, and the
selected path is `C:\a`. -/
theorem windows_file_picker_returns_selected_path_witness :
    windows_file_picker ⟨RPC_E_CHANGED_MODE, 0, 0, 0, 0, some [67, 58, 92, 97]⟩ =
      (some [67, 58, 92, 97],
        [.CoInitializeEx, .CoCreateInstance, .Show, .GetResult, .GetDisplayName]) :=
  windows_file_picker_returns_selected_path ⟨RPC_E_CHANGED_MODE, 0, 0, 0, 0, some [67, 58, 92, 97]⟩
    [67, 58, 92, 97] (Or.inr rfl) (by decide) (by decide) (by decide) (by decide) rfl

/-- C3: when `Show` answers a failing code (negative as a signed 32-bit value),
`windows_file_picker` returns null and calls neither `GetResult` nor `GetDisplayName`; the
cancellation code `HRESULT_FROM_WIN32(ERROR_CANCELLED)` is such a failing code, and the run
(returned value and platform calls) is the same as the run in which `Show` answers the
cancellation code.  When initialization and dialog creation pass, the run is exactly
`CoInitializeEx`, `CoCreateInstance`, `Show`. -/
theorem windows_file_picker_show_failure (w : Win32) (hshow : w.Show < 0) :
    (windows_file_picker w).1 = none ∧
    WinCall.GetResult ∉ (windows_file_picker w).2 ∧
    WinCall.GetDisplayName ∉ (windows_file_picker w).2 ∧
    HRESULT_FROM_WIN32 ERROR_CANCELLED < 0 ∧
    windows_file_picker w =
      windows_file_picker { w with Show := HRESULT_FROM_WIN32 ERROR_CANCELLED } ∧
    (COMIsInitialized w.CoInitializeEx = true ∧ SUCCEEDED w.CoCreateInstance = true →
      windows_file_picker w = (none, [.CoInitializeEx, .CoCreateInstance, .Show])) := by
  have h3 : SUCCEEDED w.Show = false := (SUCCEEDED_eq_false_iff _).mpr hshow
  have hc : SUCCEEDED (HRESULT_FROM_WIN32 ERROR_CANCELLED) = false := by decide
  rw [windows_file_picker_run, windows_file_picker_run]
  refine ⟨?_, ?_, ?_, by decide, ?_, ?_⟩
  · split_ifs <;> simp_all
  · split_ifs <;> simp_all
  · split_ifs <;> simp_all
  · simp [h3, hc]
  · rintro ⟨h1, h2⟩
    simp [h1, h2, h3]

/-- Witness of C3: `Show` answers `E_FAIL` (0x80004005) on a platform where everything else
succeeds. -/
theorem windows_file_picker_show_failure_witness :
    (windows_file_picker ⟨0, 0, toHRESULT 0x80004005, 0, 0, some [67, 58]⟩).1 = none ∧
    windows_file_picker ⟨0, 0, toHRESULT 0x80004005, 0, 0, some [67, 58]⟩ =
      windows_file_picker ⟨0, 0, HRESULT_FROM_WIN32 ERROR_CANCELLED, 0, 0, some [67, 58]⟩ :=
  ⟨(windows_file_picker_show_failure ⟨0, 0, toHRESULT 0x80004005, 0, 0, some [67, 58]⟩
      (by decide)).1,
    (windows_file_picker_show_failure ⟨0, 0, toHRESULT 0x80004005, 0, 0, some [67, 58]⟩
      (by decide)).2.2.2.2.1⟩

/-- C4: `COMIsInitialized(RPC_E_CHANGED_MODE)` is TRUE although `RPC_E_CHANGED_MODE` is a
failing code (`SUCCEEDED` is false for it), and when `CoInitializeEx` answers
`RPC_E_CHANGED_MODE` the function does not return at the initialization check: its next
platform call is `CoCreateInstance`. -/
theorem windows_file_picker_changed_mode_not_fatal (w : Win32)
    (hmode : w.CoInitializeEx = RPC_E_CHANGED_MODE) :
    COMIsInitialized RPC_E_CHANGED_MODE = true ∧
    SUCCEEDED RPC_E_CHANGED_MODE = false ∧
    windows_file_picker w ≠ (none, [.CoInitializeEx]) ∧
    (windows_file_picker w).2.take 2 = [.CoInitializeEx, .CoCreateInstance] := by
  have h0 : COMIsInitialized w.CoInitializeEx = true := by rw [hmode]; decide
  rw [windows_file_picker_run]
  refine ⟨by decide, by decide, ?_, ?_⟩
  · split_ifs <;> simp_all
  · split_ifs <;> simp_all

/-- Witness of C4: COM answers `RPC_E_CHANGED_MODE` and the dialog cannot be created
(`E_FAIL`); `CoCreateInstance` is still called. -/
theorem windows_file_picker_changed_mode_not_fatal_witness :
    (windows_file_picker ⟨RPC_E_CHANGED_MODE, toHRESULT 0x80004005, 0, 0, 0, none⟩).2.take 2 =
      [.CoInitializeEx, .CoCreateInstance] :=
  (windows_file_picker_changed_mode_not_fatal
    ⟨RPC_E_CHANGED_MODE, toHRESULT 0x80004005, 0, 0, 0, none⟩ rfl).2.2.2

/-- C5: when `CoInitializeEx` answers a failing code other than `RPC_E_CHANGED_MODE`,
`COMIsInitialized` is FALSE for it and `windows_file_picker` returns null at once: the only
platform call of the run is `CoInitializeEx` (no `CoCreateInstance`, no `Show`, nothing
else). -/
theorem windows_file_picker_init_failure_fatal (w : Win32)
    (hfail : w.CoInitializeEx < 0) (hmode : w.CoInitializeEx ≠ RPC_E_CHANGED_MODE) :
    COMIsInitialized w.CoInitializeEx = false ∧
    windows_file_picker w = (none, [.CoInitializeEx]) := by
  have h0 : COMIsInitialized w.CoInitializeEx = false := by
    unfold COMIsInitialized
    rw [if_neg hmode]
    exact (SUCCEEDED_eq_false_iff _).mpr hfail
  refine ⟨h0, ?_⟩
  rw [windows_file_picker_run]
  simp [h0]

/-- Witness of C5: COM answers `E_OUTOFMEMORY` (0x8007000E) on a platform where every later
call would succeed. -/
theorem windows_file_picker_init_failure_fatal_witness :
    COMIsInitialized (toHRESULT 0x8007000E) = false ∧
    windows_file_picker ⟨toHRESULT 0x8007000E, 0, 0, 0, 0, some [67, 58]⟩ =
      (none, [.CoInitializeEx]) :=
  windows_file_picker_init_failure_fatal ⟨toHRESULT 0x8007000E, 0, 0, 0, 0, some [67, 58]⟩
    (by decide) (by decide)

/-- C7: on a platform where initialization passes and dialog creation and `Show` succeed: if
`GetResult` answers a failing code, `windows_file_picker` returns null and `GetDisplayName`
is not called; if `GetResult` succeeds and `GetDisplayName` answers a failing code,
`windows_file_picker` returns null. -/
theorem windows_file_picker_result_failure (w : Win32)
    (hinit : COMIsInitialized w.CoInitializeEx = true)
    (hcreate : SUCCEEDED w.CoCreateInstance = true)
    (hshow : SUCCEEDED w.Show = true) :
    (w.GetResult < 0 →
      (windows_file_picker w).1 = none ∧
      WinCall.GetDisplayName ∉ (windows_file_picker w).2 ∧
      windows_file_picker w = (none, [.CoInitializeEx, .CoCreateInstance, .Show, .GetResult])) ∧
    (SUCCEEDED w.GetResult = true → w.GetDisplayName < 0 →
      (windows_file_picker w).1 = none ∧
      windows_file_picker w =
        (none, [.CoInitializeEx, .CoCreateInstance, .Show, .GetResult, .GetDisplayName,
          .ShellItem_Release])) := by
  rw [windows_file_picker_run]
  constructor
  · intro h
    have h4 : SUCCEEDED w.GetResult = false := (SUCCEEDED_eq_false_iff _).mpr h
    simp [hinit, hcreate, hshow, h4]
  · intro h4 h
    have h5 : SUCCEEDED w.GetDisplayName = false := (SUCCEEDED_eq_false_iff _).mpr h
    simp [hinit, hcreate, hshow, h4, h5]

/-- Witness of C7: `GetResult` fails with `E_FAIL`; and `GetResult` succeeds while
`GetDisplayName` fails with `E_FAIL` although the mock stored a path. -/
theorem windows_file_picker_result_failure_witness :
    windows_file_picker ⟨0, 0, 0, toHRESULT 0x80004005, 0, some [67, 58]⟩ =
      (none, [.CoInitializeEx, .CoCreateInstance, .Show, .GetResult]) ∧
    (windows_file_picker ⟨0, 0, 0, 0, toHRESULT 0x80004005, some [67, 58]⟩).1 = none :=
  ⟨((windows_file_picker_result_failure ⟨0, 0, 0, toHRESULT 0x80004005, 0, some [67, 58]⟩
      (by decide) (by decide) (by decide)).1 (by decide)).2.2,
    ((windows_file_picker_result_failure ⟨0, 0, 0, 0, toHRESULT 0x80004005, some [67, 58]⟩
      (by decide) (by decide) (by decide)).2 (by decide) (by decide)).1⟩

/-- C10: no run of `windows_file_picker` calls `Release` on the dialog object: every run of
the body leaves through an early `return`, so the `fileOpenDialog->Release()` statement after
the `if`/`else` chain is never reached.  The shell item is released exactly on the path where
initialization, dialog creation, `Show` and `GetResult` pass and `GetDisplayName` fails; on the
success path (a run that ends right after a successful `GetDisplayName`) it is not released. -/
theorem windows_file_picker_never_releases_dialog (w : Win32) :
    WinCall.FileOpenDialog_Release ∉ (windows_file_picker w).2 ∧
    (∃ v log, (windows_file_picker_body w).run.run [] = (Except.error v, log)) ∧
    (WinCall.ShellItem_Release ∈ (windows_file_picker w).2 ↔
      (COMIsInitialized w.CoInitializeEx = true ∧ SUCCEEDED w.CoCreateInstance = true ∧
        SUCCEEDED w.Show = true ∧ SUCCEEDED w.GetResult = true ∧ w.GetDisplayName < 0)) ∧
    ((windows_file_picker w).2 =
        [.CoInitializeEx, .CoCreateInstance, .Show, .GetResult, .GetDisplayName] ↔
      (COMIsInitialized w.CoInitializeEx = true ∧ SUCCEEDED w.CoCreateInstance = true ∧
        SUCCEEDED w.Show = true ∧ SUCCEEDED w.GetResult = true ∧
        SUCCEEDED w.GetDisplayName = true)) := by
  refine ⟨?_, windows_file_picker_body_returns_early w, ?_, ?_⟩
  · rw [windows_file_picker_run]
    split_ifs <;> simp
  · rw [windows_file_picker_run, ← SUCCEEDED_eq_false_iff]
    split_ifs <;> simp_all
  · rw [windows_file_picker_run]
    split_ifs <;> simp_all

/-! ## Runs of `wait_for_cleanup` and `gtk_file_picker` -/

/-- A run of `wait_for_cleanup` never returns from the enclosing function; it falls through
with the log computed by `drain`, or runs out of fuel. -/
theorem wait_for_cleanup_run (g : Gtk) (fuel : Nat) (log : List GtkCall) :
    (wait_for_cleanup g fuel).run.run log =
      (drain g fuel log).map (fun l => (Except.ok (), l)) := by
  induction fuel generalizing log with
  | zero => rfl
  | succ fuel ih =>
    have step : (wait_for_cleanup g (fuel + 1)).run.run log =
        if g.gtk_events_pending log = true then
          (wait_for_cleanup g fuel).run.run
            (log ++ [.gtk_events_pending true, .gtk_main_iteration])
        else some (Except.ok (), log ++ [.gtk_events_pending false]) := by
      rw [wait_for_cleanup]
      cases h : g.gtk_events_pending log <;>
      simp [gtk_events_pending, gtkCall, h, ExceptT.run, get, getThe, MonadStateOf.get, liftM,
        monadLift, MonadLift.monadLift, ExceptT.lift, ExceptT.mk, StateT.get, modify, modifyGet,
        MonadStateOf.modifyGet, StateT.modifyGet, bind, StateT.bind, pure, StateT.pure,
        ExceptT.bind, ExceptT.bindCont, ExceptT.pure, StateT.run, StateT.map, Functor.map,
        StateT.lift]
    rw [step, drain, ih]
    split_ifs <;> rfl

theorem firstEmptyAfter_zero (g : Gtk) (log : List GtkCall) :
    FirstEmptyAfter g log 0 ↔ g.gtk_events_pending log = false := by
  simp [FirstEmptyAfter, mainLoopIterations]

theorem firstEmptyAfter_succ (g : Gtk) (log : List GtkCall) (k : Nat) :
    FirstEmptyAfter g log (k + 1) ↔
      g.gtk_events_pending log = true ∧
        FirstEmptyAfter g (log ++ [.gtk_events_pending true, .gtk_main_iteration]) k := by
  unfold FirstEmptyAfter
  constructor
  · rintro ⟨h1, h2⟩
    refine ⟨by simpa [mainLoopIterations] using h1 0 (by omega), ?_, ?_⟩
    · intro j hj
      simpa [mainLoopIterations] using h1 (j + 1) (by omega)
    · simpa [mainLoopIterations] using h2
  · rintro ⟨h0, h1, h2⟩
    refine ⟨?_, ?_⟩
    · intro j hj
      cases j with
      | zero => simpa [mainLoopIterations] using h0
      | succ j => simpa [mainLoopIterations] using h1 j (by omega)
    · simpa [mainLoopIterations] using h2

/-- A drain finishes within the fuel exactly when the toolkit first reports an empty queue
after some number `k` of loop rounds below the fuel; it then appended those `k` rounds and the
final check to the log. -/
theorem drain_eq_some_iff (g : Gtk) (fuel : Nat) (log l : List GtkCall) :
    drain g fuel log = some l ↔
      ∃ k, k < fuel ∧ FirstEmptyAfter g log k ∧ l = log ++ drainLog k := by
  induction fuel generalizing log with
  | zero => simp [drain]
  | succ fuel ih =>
    rw [drain]
    by_cases hp : g.gtk_events_pending log = true
    · rw [if_pos hp, ih]
      constructor
      · rintro ⟨k, hk, hf, hl⟩
        refine ⟨k + 1, by omega, (firstEmptyAfter_succ g log k).mpr ⟨hp, hf⟩, ?_⟩
        simpa [drainLog, mainLoopIterations] using hl
      · rintro ⟨k, hk, hf, hl⟩
        cases k with
        | zero =>
          rw [firstEmptyAfter_zero] at hf
          rw [hf] at hp
          cases hp
        | succ k =>
          refine ⟨k, by omega, ((firstEmptyAfter_succ g log k).mp hf).2, ?_⟩
          simpa [drainLog, mainLoopIterations] using hl
    · rw [if_neg hp]
      have hp0 : g.gtk_events_pending log = false := by simpa using hp
      constructor
      · intro h
        refine ⟨0, by omega, (firstEmptyAfter_zero g log).mpr hp0, ?_⟩
        simpa [drainLog, mainLoopIterations] using (Option.some.inj h).symm
      · rintro ⟨k, hk, hf, hl⟩
        cases k with
        | zero =>
          rw [hl]
          simp [drainLog, mainLoopIterations]
        | succ k =>
          exact absurd ((firstEmptyAfter_succ g log k).mp hf).1 hp

/-- On a toolkit that always reports pending events no drain finishes, whatever the fuel. -/
theorem drain_eq_none_of_always_pending (g : Gtk)
    (h : ∀ log, g.gtk_events_pending log = true) (fuel : Nat) (log : List GtkCall) :
    drain g fuel log = none := by
  induction fuel generalizing log with
  | zero => rfl
  | succ fuel ih => rw [drain, if_pos (h log), ih]

/-- The log of `gtk_file_picker` up to the first drain. -/
theorem gtk_file_picker_run (g : Gtk) (fuel : Nat) :
    gtk_file_picker g fuel =
      if g.gtk_init_check = false then
        some (none, [.gtk_init_check])
      else
        (drain g fuel ([.gtk_init_check, .gtk_file_chooser_dialog_new, .gtk_dialog_run] ++
            if g.gtk_dialog_run = GTK_RESPONSE_ACCEPT then [.gtk_file_chooser_get_filename]
            else [])).bind fun l1 =>
          (drain g fuel (l1 ++ [.gtk_widget_destroy])).map fun l2 =>
            (if g.gtk_dialog_run = GTK_RESPONSE_ACCEPT then g.gtk_file_chooser_get_filename
              else none, l2) := by
  have hw := wait_for_cleanup_run g fuel
  simp only [ExceptT.run, StateT.run] at hw
  unfold gtk_file_picker gtk_file_picker_body
  cases hinit : g.gtk_init_check
  · by_cases hr : g.gtk_dialog_run = GTK_RESPONSE_ACCEPT <;>
    simp [hinit, hr, gtkReturn, gtkCall, ExceptT.run, modify, modifyGet, throw, throwThe,
      MonadExceptOf.throw, ExceptT.mk, MonadStateOf.modifyGet, liftM, monadLift,
      MonadLift.monadLift, ExceptT.lift, StateT.modifyGet, bind, StateT.bind, pure, StateT.pure,
      ExceptT.bind, ExceptT.bindCont, ExceptT.pure, StateT.run, StateT.map, Functor.map]
  · by_cases hr : g.gtk_dialog_run = GTK_RESPONSE_ACCEPT
    · simp [hinit, hr, gtkReturn, gtkCall, ExceptT.run, modify, modifyGet, ExceptT.mk,
        MonadStateOf.modifyGet, liftM, monadLift, MonadLift.monadLift, ExceptT.lift,
        StateT.modifyGet, bind, StateT.bind, pure, StateT.pure, ExceptT.bind, ExceptT.bindCont,
        ExceptT.pure, StateT.run, StateT.map, Functor.map, hw]
      cases drain g fuel [.gtk_init_check, .gtk_file_chooser_dialog_new, .gtk_dialog_run,
          .gtk_file_chooser_get_filename] with
      | none => rfl
      | some l1 =>
        simp [ExceptT.bindCont, StateT.bind, StateT.map, StateT.modifyGet, StateT.pure, bind,
          pure, hw]
        cases drain g fuel (l1 ++ [.gtk_widget_destroy]) <;> rfl
    · simp [hinit, hr, gtkReturn, gtkCall, ExceptT.run, modify, modifyGet, ExceptT.mk,
        MonadStateOf.modifyGet, liftM, monadLift, MonadLift.monadLift, ExceptT.lift,
        StateT.modifyGet, bind, StateT.bind, pure, StateT.pure, ExceptT.bind, ExceptT.bindCont,
        ExceptT.pure, StateT.run, StateT.map, Functor.map, hw]
      cases drain g fuel [.gtk_init_check, .gtk_file_chooser_dialog_new, .gtk_dialog_run] with
      | none => rfl
      | some l1 =>
        simp [ExceptT.bindCont, StateT.bind, StateT.map, StateT.modifyGet, StateT.pure, bind,
          pure, hw]
        cases drain g fuel (l1 ++ [.gtk_widget_destroy]) <;> rfl

/-- The runs of `gtk_file_picker` that pass initialization and return, exactly: both drains
finish within the fuel, the first after `k1` rounds and the second, started after
`gtk_widget_destroy`, after `k2` rounds; the returned pointer is decided by the dialog
response, and the log is the calls up to the response, the first drain, `gtk_widget_destroy`
and the second drain. -/
theorem gtk_file_picker_eq_some_iff (g : Gtk) (fuel : Nat) (ret : CharPtr)
    (log : List GtkCall) (hinit : g.gtk_init_check = true) :
    gtk_file_picker g fuel = some (ret, log) ↔
      ∃ k1 k2, k1 < fuel ∧ k2 < fuel ∧
        FirstEmptyAfter g (dialogLog g) k1 ∧
        FirstEmptyAfter g (dialogLog g ++ drainLog k1 ++ [.gtk_widget_destroy]) k2 ∧
        ret = (if g.gtk_dialog_run = GTK_RESPONSE_ACCEPT then g.gtk_file_chooser_get_filename
          else none) ∧
        log = dialogLog g ++ drainLog k1 ++ [.gtk_widget_destroy] ++ drainLog k2 := by
  rw [gtk_file_picker_run, if_neg (by simp [hinit])]
  change ((drain g fuel (dialogLog g)).bind fun l1 =>
    (drain g fuel (l1 ++ [.gtk_widget_destroy])).map fun l2 =>
      (if g.gtk_dialog_run = GTK_RESPONSE_ACCEPT then g.gtk_file_chooser_get_filename
        else none, l2)) = some (ret, log) ↔ _
  constructor
  · intro h
    obtain ⟨l1, h1, h⟩ := Option.bind_eq_some.mp h
    obtain ⟨l2, h2, h⟩ := Option.map_eq_some'.mp h
    obtain ⟨k1, hk1, f1, e1⟩ := (drain_eq_some_iff g fuel _ l1).mp h1
    obtain ⟨k2, hk2, f2, e2⟩ := (drain_eq_some_iff g fuel _ l2).mp h2
    obtain ⟨hret, hlog⟩ := Prod.mk.inj h
    subst e1
    exact ⟨k1, k2, hk1, hk2, f1, f2, hret.symm, by rw [← hlog, e2]⟩
  · rintro ⟨k1, k2, hk1, hk2, f1, f2, hret, hlog⟩
    have h1 := (drain_eq_some_iff g fuel (dialogLog g) _).mpr ⟨k1, hk1, f1, rfl⟩
    have h2 := (drain_eq_some_iff g fuel (dialogLog g ++ drainLog k1 ++ [.gtk_widget_destroy])
      _).mpr ⟨k2, hk2, f2, rfl⟩
    rw [h1, Option.some_bind, h2, Option.map_some', hret, hlog]

/-- A run of `gtk_file_picker` that returned with some fuel returns the same with more. -/
theorem gtk_file_picker_fuel_mono (g : Gtk) (fuel fuel2 : Nat) (ret : CharPtr)
    (log : List GtkCall) (hle : fuel ≤ fuel2) (h : gtk_file_picker g fuel = some (ret, log)) :
    gtk_file_picker g fuel2 = some (ret, log) := by
  cases hinit : g.gtk_init_check
  · rw [gtk_file_picker_run, if_pos hinit] at h ⊢
    exact h
  · obtain ⟨k1, k2, hk1, hk2, rest⟩ := (gtk_file_picker_eq_some_iff g fuel ret log hinit).mp h
    exact (gtk_file_picker_eq_some_iff g fuel2 ret log hinit).mpr
      ⟨k1, k2, by omega, by omega, rest⟩

/-- The function `gtk_file_picker`, past initialization, returns for some fuel exactly when
both of its drains finish. -/
theorem gtk_file_picker_returns_iff (g : Gtk) (hinit : g.gtk_init_check = true) :
    (∃ fuel, (gtk_file_picker g fuel).isSome = true) ↔
      ∃ k1 k2, FirstEmptyAfter g (dialogLog g) k1 ∧
        FirstEmptyAfter g (dialogLog g ++ drainLog k1 ++ [.gtk_widget_destroy]) k2 := by
  constructor
  · rintro ⟨fuel, h⟩
    obtain ⟨⟨ret, log⟩, h⟩ := Option.isSome_iff_exists.mp h
    obtain ⟨k1, k2, -, -, f1, f2, -⟩ := (gtk_file_picker_eq_some_iff g fuel ret log hinit).mp h
    exact ⟨k1, k2, f1, f2⟩
  · rintro ⟨k1, k2, f1, f2⟩
    refine ⟨k1 + k2 + 1, ?_⟩
    rw [(gtk_file_picker_eq_some_iff g (k1 + k2 + 1) _ _ hinit).mpr
      ⟨k1, k2, by omega, by omega, f1, f2, rfl, rfl⟩]
    rfl

/-- On a toolkit that always reports pending events, `gtk_file_picker` past initialization
has no outcome, whatever the fuel. -/
theorem gtk_file_picker_eq_none_of_always_pending (g : Gtk) (hinit : g.gtk_init_check = true)
    (h : ∀ log, g.gtk_events_pending log = true) (fuel : Nat) :
    gtk_file_picker g fuel = none := by
  rw [gtk_file_picker_run, if_neg (by simp [hinit]), drain_eq_none_of_always_pending g h]
  rfl

theorem mem_mainLoopIterations (k : Nat) (c : GtkCall) (h : c ∈ mainLoopIterations k) :
    c = .gtk_events_pending true ∨ c = .gtk_main_iteration := by
  induction k with
  | zero => simp [mainLoopIterations] at h
  | succ k ih =>
    simp only [mainLoopIterations, List.mem_append, List.mem_cons, List.mem_singleton,
      List.not_mem_nil, or_false] at h
    rcases h with (h | h) | h
    · exact Or.inl h
    · exact Or.inr h
    · exact ih h

theorem mem_drainLog (k : Nat) (c : GtkCall) (h : c ∈ drainLog k) :
    c = .gtk_events_pending true ∨ c = .gtk_main_iteration ∨ c = .gtk_events_pending false := by
  simp only [drainLog, List.mem_append, List.mem_singleton] at h
  rcases h with h | h
  · rcases mem_mainLoopIterations k c h with h | h
    · exact Or.inl h
    · exact Or.inr (Or.inl h)
  · exact Or.inr (Or.inr h)

theorem count_mainLoopIterations (k : Nat) (c : GtkCall)
    (h1 : c ≠ .gtk_events_pending true) (h2 : c ≠ .gtk_main_iteration) :
    (mainLoopIterations k).count c = 0 :=
  List.count_eq_zero.mpr fun h => by
    rcases mem_mainLoopIterations k c h with h | h
    · exact h1 h
    · exact h2 h

theorem count_drainLog_pending_false (k : Nat) :
    (drainLog k).count (.gtk_events_pending false) = 1 := by
  simp [drainLog, List.count_append, count_mainLoopIterations]

theorem count_drainLog_widget_destroy (k : Nat) :
    (drainLog k).count .gtk_widget_destroy = 0 := by
  simp [drainLog, List.count_append, count_mainLoopIterations]

/-! ## Claims on `gtk_file_picker` -/

/-- C2 (amended): once `gtk_init_check` succeeds, on every run of `gtk_file_picker` that
returns, what it returns is decided by the response of `gtk_dialog_run` alone: for
`GTK_RESPONSE_ACCEPT` it is exactly the pointer `gtk_file_chooser_get_filename` produced; for
every other response it is null and `gtk_file_chooser_get_filename` is not among the toolkit
calls of the run.  A run that returned with some fuel returns the same with more, and the
function returns at all exactly when both of its drains finish: the toolkit first reports an
empty queue after some `k1` loop rounds following the dialog response, and after some `k2`
rounds following `gtk_widget_destroy`. -/
theorem gtk_file_picker_result_by_response (g : Gtk) (hinit : g.gtk_init_check = true) :
    (∀ fuel ret log, gtk_file_picker g fuel = some (ret, log) →
      (g.gtk_dialog_run = GTK_RESPONSE_ACCEPT → ret = g.gtk_file_chooser_get_filename) ∧
      (g.gtk_dialog_run ≠ GTK_RESPONSE_ACCEPT →
        ret = none ∧ GtkCall.gtk_file_chooser_get_filename ∉ log) ∧
      ∀ fuel2, fuel ≤ fuel2 → gtk_file_picker g fuel2 = some (ret, log)) ∧
    ((∃ fuel, (gtk_file_picker g fuel).isSome = true) ↔
      ∃ k1 k2, FirstEmptyAfter g (dialogLog g) k1 ∧
        FirstEmptyAfter g (dialogLog g ++ drainLog k1 ++ [.gtk_widget_destroy]) k2) := by
  refine ⟨?_, gtk_file_picker_returns_iff g hinit⟩
  intro fuel ret log h
  obtain ⟨k1, k2, -, -, -, -, hret, hlog⟩ :=
    (gtk_file_picker_eq_some_iff g fuel ret log hinit).mp h
  refine ⟨?_, ?_, fun fuel2 hle => gtk_file_picker_fuel_mono g fuel fuel2 ret log hle h⟩
  · intro hr
    rw [hret, if_pos hr]
  · intro hr
    rw [if_neg hr] at hret
    refine ⟨hret, ?_⟩
    rw [hlog, dialogLog, if_neg hr]
    intro hmem
    simp only [List.mem_append, List.mem_cons, List.mem_singleton, List.not_mem_nil,
      or_false] at hmem
    rcases hmem with (((h | h | h) | h) | h) | h
    · cases h
    · cases h
    · cases h
    · rcases mem_drainLog k1 _ h with h | h | h <;> cases h
    · cases h
    · rcases mem_drainLog k2 _ h with h | h | h <;> cases h

/-- Witness of C2: on `oneEventToolkit`, accepting the dialog returns the chosen name `/x`
with fuel 2 and with every larger fuel, and both drains finish. -/
theorem gtk_file_picker_result_by_response_witness :
    (∀ fuel2, 2 ≤ fuel2 →
      gtk_file_picker (oneEventToolkit GTK_RESPONSE_ACCEPT (some [47, 120])) fuel2 =
        some (some [47, 120],
          [.gtk_init_check, .gtk_file_chooser_dialog_new, .gtk_dialog_run,
            .gtk_file_chooser_get_filename,
            .gtk_events_pending true, .gtk_main_iteration, .gtk_events_pending false,
            .gtk_widget_destroy,
            .gtk_events_pending true, .gtk_main_iteration, .gtk_events_pending false])) ∧
    ∃ k1 k2,
      FirstEmptyAfter (oneEventToolkit GTK_RESPONSE_ACCEPT (some [47, 120]))
        (dialogLog (oneEventToolkit GTK_RESPONSE_ACCEPT (some [47, 120]))) k1 ∧
      FirstEmptyAfter (oneEventToolkit GTK_RESPONSE_ACCEPT (some [47, 120]))
        (dialogLog (oneEventToolkit GTK_RESPONSE_ACCEPT (some [47, 120])) ++ drainLog k1 ++
          [.gtk_widget_destroy]) k2 :=
  ⟨((gtk_file_picker_result_by_response (oneEventToolkit GTK_RESPONSE_ACCEPT (some [47, 120]))
      rfl).1 2 _ _ (by decide)).2.2,
    (gtk_file_picker_result_by_response (oneEventToolkit GTK_RESPONSE_ACCEPT (some [47, 120]))
      rfl).2.mp ⟨2, by decide⟩⟩

/-- Counterexample to C2 as stated: a toolkit that initializes, whose dialog is accepted with
the name `/x`, and whose `gtk_events_pending` always answers true.  The loop of the first
`wait_for_cleanup()` never ends, so no run of `gtk_file_picker` returns, whatever the fuel:
the name is not returned. -/
theorem gtk_file_picker_result_by_response_counterexample :
    (alwaysPendingToolkit GTK_RESPONSE_ACCEPT (some [47, 120])).gtk_init_check = true ∧
    (alwaysPendingToolkit GTK_RESPONSE_ACCEPT (some [47, 120])).gtk_dialog_run =
      GTK_RESPONSE_ACCEPT ∧
    ¬ ∃ fuel ret log,
      gtk_file_picker (alwaysPendingToolkit GTK_RESPONSE_ACCEPT (some [47, 120])) fuel =
        some (ret, log) := by
  refine ⟨rfl, rfl, ?_⟩
  rintro ⟨fuel, ret, log, h⟩
  rw [gtk_file_picker_eq_none_of_always_pending _ rfl (fun _ => rfl)] at h
  cases h

/-- C6: whenever `gtk_init_check` answers false, `gtk_file_picker` returns null and
`gtk_init_check` is the only toolkit call of the run: no dialog is constructed or run, no
event is queried or processed, nothing is destroyed.  No loop is entered, so this holds for
every fuel. -/
theorem gtk_file_picker_init_failure (g : Gtk) (fuel : Nat)
    (hinit : g.gtk_init_check = false) :
    gtk_file_picker g fuel = some (none, [.gtk_init_check]) := by
  rw [gtk_file_picker_run]
  simp [hinit]

/-- Witness of C6: a toolkit without a display, which would otherwise accept with a name and
never run out of events. -/
theorem gtk_file_picker_init_failure_witness :
    gtk_file_picker ⟨false, GTK_RESPONSE_ACCEPT, some [47, 120], fun _ => true⟩ 0 =
      some (none, [.gtk_init_check]) :=
  gtk_file_picker_init_failure ⟨false, GTK_RESPONSE_ACCEPT, some [47, 120], fun _ => true⟩ 0 rfl

/-- C9 (amended): once `gtk_init_check` succeeds, `gtk_file_picker` drains the toolkit event
queue exactly twice on every run that returns, whatever the dialog response.  A run returns
`ret` with log `log` within the fuel exactly when both drains finish, the first after some
`k1` loop rounds and the second after some `k2`, and then the log is: the calls up to the
dialog response (with `gtk_file_chooser_get_filename` after an accept), a complete drain,
`gtk_widget_destroy`, a second complete drain, and nothing more.  A complete drain is some
number of rounds (`gtk_events_pending` answering true, then `gtk_main_iteration`) ended by
`gtk_events_pending` answering false, the toolkit having no event pending there.  The log of
a run that returns has exactly two such final checks and exactly one `gtk_widget_destroy`. -/
theorem gtk_file_picker_drains_twice (g : Gtk) (hinit : g.gtk_init_check = true) :
    (∀ fuel ret log, gtk_file_picker g fuel = some (ret, log) ↔
      ∃ k1 k2, k1 < fuel ∧ k2 < fuel ∧
        FirstEmptyAfter g (dialogLog g) k1 ∧
        FirstEmptyAfter g (dialogLog g ++ drainLog k1 ++ [.gtk_widget_destroy]) k2 ∧
        ret = (if g.gtk_dialog_run = GTK_RESPONSE_ACCEPT then g.gtk_file_chooser_get_filename
          else none) ∧
        log = dialogLog g ++ drainLog k1 ++ [.gtk_widget_destroy] ++ drainLog k2) ∧
    (∀ fuel ret log, gtk_file_picker g fuel = some (ret, log) →
      log.count (.gtk_events_pending false) = 2 ∧ log.count .gtk_widget_destroy = 1) := by
  refine ⟨fun fuel ret log => gtk_file_picker_eq_some_iff g fuel ret log hinit, ?_⟩
  intro fuel ret log h
  obtain ⟨k1, k2, -, -, -, -, -, hlog⟩ :=
    (gtk_file_picker_eq_some_iff g fuel ret log hinit).mp h
  rw [hlog, dialogLog]
  constructor
  · by_cases hr : g.gtk_dialog_run = GTK_RESPONSE_ACCEPT <;>
    simp [hr, List.count_append, count_drainLog_pending_false, List.count_cons]
  · by_cases hr : g.gtk_dialog_run = GTK_RESPONSE_ACCEPT <;>
    simp [hr, List.count_append, count_drainLog_widget_destroy, List.count_cons]

/-- Witness of C9: on `oneEventToolkit` with the dialog closed by the window manager
(`GTK_RESPONSE_DELETE_EVENT`), the run with fuel 2 returns; each of its two drains is one
round and the final check, around the single `gtk_widget_destroy`. -/
theorem gtk_file_picker_drains_twice_witness :
    gtk_file_picker (oneEventToolkit GTK_RESPONSE_DELETE_EVENT none) 2 =
      some (none,
        [.gtk_init_check, .gtk_file_chooser_dialog_new, .gtk_dialog_run,
          .gtk_events_pending true, .gtk_main_iteration, .gtk_events_pending false,
          .gtk_widget_destroy,
          .gtk_events_pending true, .gtk_main_iteration, .gtk_events_pending false]) ∧
    List.count (GtkCall.gtk_events_pending false)
        [.gtk_init_check, .gtk_file_chooser_dialog_new, .gtk_dialog_run,
          .gtk_events_pending true, .gtk_main_iteration, .gtk_events_pending false,
          .gtk_widget_destroy,
          .gtk_events_pending true, .gtk_main_iteration, .gtk_events_pending false] = 2 ∧
    List.count GtkCall.gtk_widget_destroy
        [.gtk_init_check, .gtk_file_chooser_dialog_new, .gtk_dialog_run,
          .gtk_events_pending true, .gtk_main_iteration, .gtk_events_pending false,
          .gtk_widget_destroy,
          .gtk_events_pending true, .gtk_main_iteration, .gtk_events_pending false] = 1 :=
  ⟨by decide,
    (gtk_file_picker_drains_twice (oneEventToolkit GTK_RESPONSE_DELETE_EVENT none) rfl).2
      2 none _ (by decide)⟩

/-- Counterexample to C9 as stated: a toolkit that initializes, whose dialog is cancelled, and
whose `gtk_events_pending` always answers true.  The run passes initialization, but the loop
of the first `wait_for_cleanup()`, started after the dialog response, never ends: whatever
the fuel, the first drain has no outcome, so `gtk_widget_destroy` and the second drain are
never reached and `gtk_file_picker` does not return. -/
theorem gtk_file_picker_drains_twice_counterexample :
    (alwaysPendingToolkit GTK_RESPONSE_CANCEL none).gtk_init_check = true ∧
    (¬ ∃ fuel,
      ((wait_for_cleanup (alwaysPendingToolkit GTK_RESPONSE_CANCEL none) fuel).run.run
        [.gtk_init_check, .gtk_file_chooser_dialog_new, .gtk_dialog_run]).isSome = true) ∧
    ¬ ∃ fuel ret log,
      gtk_file_picker (alwaysPendingToolkit GTK_RESPONSE_CANCEL none) fuel = some (ret, log) := by
  refine ⟨rfl, ?_, ?_⟩
  · rintro ⟨fuel, h⟩
    rw [wait_for_cleanup_run, drain_eq_none_of_always_pending _ (fun _ => rfl)] at h
    cases h
  · rintro ⟨fuel, ret, log, h⟩
    rw [gtk_file_picker_eq_none_of_always_pending _ rfl (fun _ => rfl)] at h
    cases h

/-! ## Claim on `igExtern_MainMenuBarHeight` -/

/-- C8: for a valid window handle whose main-menu-bar height field holds `H`, the accessor
returns exactly `H` and leaves the registry of windows unchanged, so a second call right after
the first returns the same value. -/
theorem igExtern_MainMenuBarHeight_pure_read (registry : ImGuiRegistry) (window : Nat)
    (w : ImGuiWindow) (H : CFloat)
    (hvalid : registry.lookup window = some w) (hH : w.MainMenuBarHeight = H) :
    (igExtern_MainMenuBarHeight registry window).1 = some H ∧
    (igExtern_MainMenuBarHeight registry window).2 = registry ∧
    (igExtern_MainMenuBarHeight (igExtern_MainMenuBarHeight registry window).2 window).1 =
      (igExtern_MainMenuBarHeight registry window).1 := by
  simp [igExtern_MainMenuBarHeight, hvalid, hH]

/-- Witness of C8: a registry of two windows; the window at handle 4096 has a main menu bar
of height 19.0 (pattern 0x41980000). -/
theorem igExtern_MainMenuBarHeight_pure_read_witness :
    (igExtern_MainMenuBarHeight
      [(4096, ⟨0x41980000, [1, 2]⟩), (8192, ⟨0, [3]⟩)] 4096).1 = some 0x41980000 :=
  (igExtern_MainMenuBarHeight_pure_read [(4096, ⟨0x41980000, [1, 2]⟩), (8192, ⟨0, [3]⟩)] 4096
    ⟨0x41980000, [1, 2]⟩ 0x41980000 (by decide) rfl).1

end DeviceTreeDetective
